import Mathlib

/-!
Verification of the streaming conversation engine of the resume-chatbot
frontend against its specification.

The development shallowly embeds the TypeScript sources:

* `frontend/src/components/chat/chat-interface.tsx` — send orchestration,
  stream ingest handlers, retry, new-conversation reset;
* the conversation sidebar component — filtering, sorting, grouping, deletion;
* `frontend/src/components/chat/chat-input.tsx` — the submit pipeline;
* `frontend/src/types/chat.ts` — the data model.

JavaScript strings are modelled as Lean `String`s with JS-faithful primitive
operations (`jsTrim`, `jsToLower`, `jsIncludes`, `jsLength`) defined over the
character list, matching `String.prototype.trim/toLowerCase/includes/length`
on the inputs that occur here (BMP text).  `Date` values are modelled as
local-clock milliseconds (`Int`); two dates have equal `toDateString()`
exactly when they fall in the same local calendar day, i.e. when their
floor-divisions by 86400000 agree.  Floating-point relevance scores are
carried opaquely as `Rat`; no claim computes with them.

React semantics relevant here: a `useState` setter given a function
(`set(prev => ...)`) reads the *current* state, while a plain identifier
occurrence inside a callback reads the value captured by the closure at the
render in which the callback was created.  The embedding makes this capture
explicit where it matters (the `captured` argument of `handleStreamMessage`).
-/

namespace ResumeChatbot

/-- Equality on `Except` results is decidable when it is on both components;
used to evaluate concrete stream runs. -/
instance {ε α : Type} [DecidableEq ε] [DecidableEq α] : DecidableEq (Except ε α) := fun a b =>
  match a, b with
  | .ok x, .ok y =>
      if h : x = y then .isTrue (by rw [h]) else .isFalse (by simp [h])
  | .error e, .error f =>
      if h : e = f then .isTrue (by rw [h]) else .isFalse (by simp [h])
  | .ok _, .error _ => .isFalse (by simp)
  | .error _, .ok _ => .isFalse (by simp)

/-! ## JavaScript string primitives -/

/-- Whitespace test used by `String.prototype.trim` (ASCII/Unicode whitespace;
`Char.isWhitespace` agrees on the characters occurring in this code base). -/
def isJsWhitespace (c : Char) : Bool := c.isWhitespace

/-- Remove leading and trailing whitespace from a character list. -/
def trimChars (l : List Char) : List Char :=
  ((l.dropWhile isJsWhitespace).reverse.dropWhile isJsWhitespace).reverse

/-- Model of `s.trim()`. -/
def jsTrim (s : String) : String := ⟨trimChars s.data⟩

/-- Model of `s.toLowerCase()` (per-character lowering; agrees with JS on the
ASCII text used by the claims). -/
def jsToLower (s : String) : String := ⟨s.data.map Char.toLower⟩

/-- Model of `s.includes(sub)`: `sub` occurs as a contiguous substring. -/
def jsIncludes (s sub : String) : Bool := decide (sub.data <:+: s.data)

/-- Model of `s.length` (code points; agrees with the UTF-16 length of JS on
BMP text, which is all the spec scenarios use). -/
def jsLength (s : String) : Nat := s.data.length

/-- Model of `s.substring(0, n)`. -/
def jsTake (s : String) (n : Nat) : String := ⟨s.data.take n⟩

/-! ## Data model (`frontend/src/types/chat.ts`) -/

/-- `DocumentSource`: one citation delivered by a `source` stream event. -/
structure DocumentSource where
  filename : String
  chunk_text : String
  /-- `relevance_score: number` — a float carried opaquely; modelled as `Rat`. -/
  relevance_score : Rat
  document_id : Option String := none
deriving DecidableEq

/-- Message role: `'user' | 'assistant'`. -/
inductive Role where
  | user
  | assistant
deriving DecidableEq

/-- `Message` from `types/chat.ts`; `timestamp` is epoch milliseconds. -/
structure Message where
  id : String
  content : String
  role : Role
  timestamp : Int
  sources : Option (List DocumentSource) := none
  conversationId : Option String := none
deriving DecidableEq

/-- `Conversation` metadata from `types/chat.ts` (the lazily loaded
`messages` field is not needed by any claim and omitted). -/
structure Conversation where
  id : String
  title : String
  lastMessage : Option String := none
  updatedAt : Int
  createdAt : Int
  messageCount : Nat
  userId : Option String := none
deriving DecidableEq

/-- `StreamingChatResponse` wire event.  The `type` field is kept as a raw
string so that unknown event types can be expressed (the `switch` in
`handleStreamMessage` ignores them). -/
structure StreamingChatResponse where
  type : String
  content : Option String := none
  source : Option DocumentSource := none
  error : Option String := none
deriving DecidableEq

/-! ## Chat interface component state (`chat-interface.tsx`) -/

/-- The `useState` fields of `ChatInterface` that the engine mutates.
`abortControllerRef` is declared in the source but no code path ever assigns
it a controller, so the `abort()` calls guarded by `if
(abortControllerRef.current)` are no-ops; the ref is therefore not carried in
the state. -/
structure ChatState where
  messages : List Message
  isLoading : Bool
  isStreaming : Bool
  conversationId : Option String
  error : Option String
  streamingMessage : String
deriving DecidableEq

/-- The initial component state. -/
def initialChatState : ChatState :=
  { messages := [], isLoading := false, isStreaming := false,
    conversationId := none, error := none, streamingMessage := "" }

/-! ## Stream ingest (`handleStreamingResponse` / `handleStreamMessage`) -/

/-- Entry of `handleStreamingResponse` (chat-interface.tsx:128-131):
`setIsStreaming(true); setStreamingMessage('')`; the local
`streamingSources` array starts empty. -/
def handleStreamingResponseStart (σ : ChatState) : ChatState :=
  { σ with isStreaming := true, streamingMessage := "" }

/-- One step of the `handleStreamMessage` callback (chat-interface.tsx:133-162),
acting on the component state paired with the mutable `streamingSources`
array.

`captured` is the value of the identifier `streamingMessage` inside the
callback's closure: the React state as of the render in which
`handleStreamingResponse` was invoked (stale for the whole life of the
stream).  The `message` branch uses the functional setter
`setStreamingMessage(prev => prev + response.content)` and therefore reads
the *current* state; the `done` branch reads the plain identifier and
therefore uses `captured`.  `streamingSources.push` mutates the shared
array, so `source` events act on the current accumulator.  The `error`
branch throws (`Except.error`); event types other than the four cases fall
through the `switch` unhandled. -/
def handleStreamMessage (captured : String) (convId : String) (now : Int)
    (ev : StreamingChatResponse) (st : ChatState × List DocumentSource) :
    Except String (ChatState × List DocumentSource) :=
  let σ := st.1
  let streamingSources := st.2
  if ev.type = "message" then
    match ev.content with
    | some c =>
        -- `if (response.content)`: undefined and '' are falsy
        if c ≠ "" then
          .ok ({ σ with streamingMessage := σ.streamingMessage ++ c }, streamingSources)
        else .ok st
    | none => .ok st
  else if ev.type = "source" then
    match ev.source with
    | some s => .ok (σ, streamingSources ++ [s])
    | none => .ok st
  else if ev.type = "done" then
    let assistantMessage : Message :=
      { id := toString now, content := captured, role := .assistant,
        timestamp := now, sources := some streamingSources,
        conversationId := some convId }
    .ok ({ σ with
           messages := σ.messages ++ [assistantMessage]
           streamingMessage := ""
           isStreaming := false }, streamingSources)
  else if ev.type = "error" then
    .error (match ev.error with
            | some e => if e = "" then "Streaming error occurred" else e
            | none => "Streaming error occurred")
  else
    .ok st

/-- Deliver a whole event sequence to `handleStreamMessage`, stopping at a
thrown error.  `captured` stays fixed for the stream's lifetime because the
callback closure is created once. -/
def runStream (captured : String) (convId : String) (now : Int)
    (events : List StreamingChatResponse) (st : ChatState × List DocumentSource) :
    Except String (ChatState × List DocumentSource) :=
  match events with
  | [] => .ok st
  | ev :: rest => do
      let st' ← handleStreamMessage captured convId now ev st
      runStream captured convId now rest st'

/-- `handleStreamError` (chat-interface.tsx:164-169): banner, stop streaming,
clear the partial buffer; no transcript mutation. -/
def handleStreamError (σ : ChatState) (message : String) : ChatState :=
  { σ with error := some message, isStreaming := false, streamingMessage := "" }

/-! ## Send orchestration (`handleSendMessage`) -/

/-- The user message built at chat-interface.tsx:81-87. -/
def mkUserMessage (content : String) (now : Int) (convId : Option String) : Message :=
  { id := toString now, content := jsTrim content, role := .user,
    timestamp := now, sources := none, conversationId := convId }

/-- Synchronous prefix of `handleSendMessage` (chat-interface.tsx:69-89): the
guard, `setError(null)`, `setIsLoading(true)`, and the user-message append —
everything that runs before the first `await`. -/
def handleSendMessagePre (σ : ChatState) (content : String) (now : Int) : ChatState :=
  if jsTrim content = "" ∨ σ.isLoading ∨ σ.isStreaming then σ
  else
    { σ with
      error := none
      isLoading := true
      messages := σ.messages ++ [mkUserMessage content now σ.conversationId] }

/-- Conversation title derivation (chat-interface.tsx:96):
`content.length > 50 ? content.substring(0, 47) + '...' : content`. -/
def deriveTitle (content : String) : String :=
  if jsLength content > 50 then jsTake content 47 ++ "..." else content

/-- Observable actions of one `handleSendMessage` run, in program order. -/
inductive SendStep where
  /-- `setMessages(prev => [...prev, m])` -/
  | appendMessage (m : Message)
  /-- network call `createConversation(title)` -/
  | netCreateConversation (title : String)
  /-- `setConversationId(id)` — the new conversation becomes active -/
  | setConvId (id : String)
  /-- network call `createStreamingChat({message, conversation_id}, ...)` -/
  | netOpenStream (message : String) (convId : String)
  /-- network call `sendMessage({message, conversation_id})` -/
  | netSendMessage (message : String) (convId : String)
deriving DecidableEq

/-- Whether a step is a transcript append. -/
def SendStep.isAppendMessage : SendStep → Bool
  | .appendMessage _ => true
  | _ => false

/-- Action trace of `handleSendMessage σ content` on its success path
(chat-interface.tsx:69-107), with the guard at line 70.  `newConvId` is the
id returned by `createConversation` when one is needed; `streamingEnabled`
is `process.env.NEXT_PUBLIC_ENABLE_STREAMING === 'true'`. -/
def handleSendMessageSteps (σ : ChatState) (content : String) (now : Int)
    (newConvId : String) (streamingEnabled : Bool) : List SendStep :=
  if jsTrim content = "" ∨ σ.isLoading ∨ σ.isStreaming then []
  else
    SendStep.appendMessage (mkUserMessage content now σ.conversationId) ::
    (match σ.conversationId with
     | none => [SendStep.netCreateConversation (deriveTitle content),
                SendStep.setConvId newConvId]
     | some _ => []) ++
    (let convId := σ.conversationId.getD newConvId
     if streamingEnabled then [SendStep.netOpenStream content convId]
     else [SendStep.netSendMessage content convId])

/-- Value of the identifier `currentConvId` inside the `catch` block of
`handleSendMessage`.  In the source, `currentConvId` is declared with `let`
*inside* the `try` block (chat-interface.tsx:93) and is referenced in the
`catch` block (chat-interface.tsx:119); `let` bindings are block-scoped, so
the identifier is not bound in the catch scope and evaluating it throws a
`ReferenceError`.  `none` encodes "not in scope". -/
def currentConvIdInCatchScope : Option (Option String) := none

/-- The `catch` block of `handleSendMessage` (chat-interface.tsx:108-121):
`setError(errorMessage)` takes effect, then the synthetic error `Message`
object literal is evaluated; evaluating its `conversationId: currentConvId`
property throws, so the subsequent `setMessages` append never runs.  Returns
the state as mutated so far together with the block's outcome. -/
def handleSendMessageCatch (σ : ChatState) (errorMessage : String) (now : Int) :
    ChatState × Except String Unit :=
  let σ₁ := { σ with error := some errorMessage }
  match currentConvIdInCatchScope with
  | none => (σ₁, .error "ReferenceError: currentConvId is not defined")
  | some convId =>
      let errorResponse : Message :=
        { id := toString (now + 1),
          content := "Sorry, I encountered an error: " ++ errorMessage ++ ". Please try again.",
          role := .assistant, timestamp := now, sources := none,
          conversationId := convId }
      ({ σ₁ with messages := σ₁.messages ++ [errorResponse] }, .ok ())

/-! ## New conversation, selection, retry -/

/-- `handleNewConversation` (chat-interface.tsx:196-210).  The
`abortControllerRef.current?.abort()` guard is a no-op because the ref is
never assigned; all the `setState` resets run. -/
def handleNewConversation (σ : ChatState) : ChatState :=
  { σ with
    conversationId := none
    messages := []
    error := none
    isLoading := false
    isStreaming := false
    streamingMessage := "" }

/-- The error-like test of `handleRetry` (chat-interface.tsx:227):
`lastMessage?.role === 'assistant' && lastMessage.content.includes('error')`. -/
def isErrorLike (m : Message) : Bool :=
  m.role = .assistant && jsIncludes m.content "error"

/-- The corrective removal inside `handleRetry` (chat-interface.tsx:225-231):
drop the last message exactly when it is an error-like assistant message. -/
def removeTrailingIfErrorLike (messages : List Message) : List Message :=
  match messages.getLast? with
  | some lastMessage =>
      if isErrorLike lastMessage then messages.dropLast else messages
  | none => messages

/-- `handleRetry` (chat-interface.tsx:217-236): if the transcript is nonempty
and contains a user message, perform the corrective removal and re-submit the
most recent user message's content (the resubmitted content is returned; the
source passes it to `handleSendMessage`). -/
def handleRetry (σ : ChatState) : ChatState × Option String :=
  if σ.messages.isEmpty then (σ, none)
  else
    match (σ.messages.filter (fun m => m.role = Role.user)).getLast? with
    | some lastUserMessage =>
        ({ σ with messages := removeTrailingIfErrorLike σ.messages },
         some lastUserMessage.content)
    | none => (σ, none)

/-! ## Conversation sidebar (`conversation-sidebar.tsx`) -/

/-- The text criterion of the sidebar filter effect:
`conv.title.toLowerCase().includes(query) ||
 conv.lastMessage?.toLowerCase().includes(query)` where `query` is the
already-lowercased search string (`searchQuery.toLowerCase()`); a missing
`lastMessage` is falsy. -/
def textMatches (query : String) (conv : Conversation) : Bool :=
  jsIncludes (jsToLower conv.title) query ||
  (match conv.lastMessage with
   | some lm => jsIncludes (jsToLower lm) query
   | none => false)

/-- Sort comparator: `.sort((a, b) => b.updatedAt.getTime() - a.updatedAt.getTime())`.
`a` precedes `b` exactly when the comparator is non-positive, i.e.
`b.updatedAt ≤ a.updatedAt`. -/
def updatedDescLE (a b : Conversation) : Bool :=
  decide (b.updatedAt ≤ a.updatedAt)

/-- The filter effect of `ConversationSidebar` (sidebar source lines 61-83):
text filter when the trimmed query is nonempty, then the optional inclusive
date-range filter, then a stable sort by `updatedAt` descending
(`Array.prototype.sort` is stable; modelled by `List.mergeSort`). -/
def filteredConversationsOf (conversations : List Conversation)
    (searchQuery : String) (dateRange : Option (Int × Int)) : List Conversation :=
  let filtered := conversations
  let filtered :=
    if jsTrim searchQuery ≠ "" then
      let query := jsToLower searchQuery
      filtered.filter (textMatches query)
    else filtered
  let filtered :=
    match dateRange with
    | some r => filtered.filter
        (fun (conv : Conversation) => decide (r.1 ≤ conv.updatedAt ∧ conv.updatedAt ≤ r.2))
    | none => filtered
  filtered.mergeSort updatedDescLE

/-- Local calendar day index of a local-clock-milliseconds timestamp; two
timestamps have equal `toDateString()` exactly when these agree. -/
def toDateStringDay (t : Int) : Int := t / 86400000

/-- The bucket chosen for one conversation by the `forEach` of
`conversationGroups` (sidebar source lines 184-194): same calendar day as
`now` → Today; same calendar day as `now − 24h` → Yesterday; otherwise
strictly newer than `now − 7·24h` (an instant comparison, not a calendar
one) → This Week; otherwise Older. -/
def bucketOf (now : Int) (conv : Conversation) : String :=
  let yesterday := now - 24 * 60 * 60 * 1000
  let weekAgo := now - 7 * 24 * 60 * 60 * 1000
  if toDateStringDay conv.updatedAt = toDateStringDay now then "Today"
  else if toDateStringDay conv.updatedAt = toDateStringDay yesterday then "Yesterday"
  else if weekAgo < conv.updatedAt then "This Week"
  else "Older"

/-- `conversationGroups` (sidebar source lines 172-197): the four buckets in
insertion order Today, Yesterday, This Week, Older, each holding its
conversations in input order (the `forEach` pushes each conversation to
exactly one bucket, so a bucket's content is the input filtered to it);
`Object.entries(groups).filter(([, convs]) => convs.length > 0)` drops the
empty buckets. -/
def conversationGroups (now : Int) (filtered : List Conversation) :
    List (String × List Conversation) :=
  ([("Today", filtered.filter (fun c => bucketOf now c = "Today")),
    ("Yesterday", filtered.filter (fun c => bucketOf now c = "Yesterday")),
    ("This Week", filtered.filter (fun c => bucketOf now c = "This Week")),
    ("Older", filtered.filter (fun c => bucketOf now c = "Older"))]).filter
    (fun p => !p.2.isEmpty)

/-! ## Combined application state and deletion -/

/-- The sidebar's directory list together with the chat interface state it is
wired to (`currentConversationId={conversationId}`,
`onNewConversation={handleNewConversation}`). -/
structure AppState where
  chat : ChatState
  conversations : List Conversation
deriving DecidableEq

/-- Success path of `handleDeleteConversation` (sidebar source lines
113-132) after the user confirms and the network delete succeeds: the entry
is filtered out of the directory, and only when the deleted id is the active
conversation is `onNewConversation` (the chat interface's reset) invoked. -/
def handleDeleteConversation (s : AppState) (conversationId : String) : AppState :=
  let s' := { s with
    conversations := s.conversations.filter (fun c => c.id ≠ conversationId) }
  if s.chat.conversationId = some conversationId then
    { s' with chat := handleNewConversation s'.chat }
  else s'

/-! ## Chat input submit pipeline and reachable transcripts -/

/-- `ChatInput.handleSubmit` (chat-input.tsx:103-116) composed with the
orchestrator: when the trimmed draft is nonempty and the input is neither
loading nor disabled, `onSendMessage(message.trim())` is invoked, which is
`handleSendMessage`; its synchronous prefix is `handleSendMessagePre`.  The
textarea carries `maxLength={1000}` (chat-input.tsx:306), so any draft it can
hold satisfies `jsLength draft ≤ 1000`; that bound is a hypothesis wherever
this function models a UI submission. -/
def chatInputSubmit (σ : ChatState) (draft : String) (now : Int) : ChatState :=
  if jsTrim draft ≠ "" ∧ ¬σ.isLoading then
    handleSendMessagePre σ (jsTrim draft) now
  else σ

/-- One retry, as executed by `handleRetry`: the corrective removal followed
by the synchronous prefix of the re-submission. -/
def retryStep (σ : ChatState) (now : Int) : ChatState :=
  match handleRetry σ with
  | (σ', some content) => handleSendMessagePre σ' content now
  | (σ', none) => σ'

/-- Chat states reachable through the public send interface: the initial
state, input submissions (drafts bounded by the textarea's `maxLength`),
stream event deliveries, stream/send failure handlers, retry, and the
new-conversation reset. -/
inductive ReachableChat : ChatState → Prop
  | init : ReachableChat initialChatState
  | submit (σ : ChatState) (draft : String) (now : Int) :
      ReachableChat σ → jsLength draft ≤ 1000 →
      ReachableChat (chatInputSubmit σ draft now)
  | streamStart (σ : ChatState) :
      ReachableChat σ → ReachableChat (handleStreamingResponseStart σ)
  | streamEvent (σ σ' : ChatState) (captured convId : String) (now : Int)
      (ev : StreamingChatResponse) (sources sources' : List DocumentSource) :
      ReachableChat σ →
      handleStreamMessage captured convId now ev (σ, sources) = .ok (σ', sources') →
      ReachableChat σ'
  | streamFailed (σ : ChatState) (message : String) :
      ReachableChat σ → ReachableChat (handleStreamError σ message)
  | sendFailed (σ : ChatState) (errorMessage : String) (now : Int) :
      ReachableChat σ → ReachableChat (handleSendMessageCatch σ errorMessage now).1
  | retry (σ : ChatState) (now : Int) :
      ReachableChat σ → ReachableChat (retryStep σ now)
  | newConversation (σ : ChatState) :
      ReachableChat σ → ReachableChat (handleNewConversation σ)

/-- The invariant claimed for user-role messages: nonempty, equal to its own
trim (no leading or trailing whitespace), and at most 1000 characters. -/
def userMessageOk (m : Message) : Prop :=
  m.content ≠ "" ∧ jsTrim m.content = m.content ∧ jsLength m.content ≤ 1000

/-! ## Claim C1 — stream finalization

The `done` branch builds the assistant message from the identifier
`streamingMessage`, which the callback closure captured at stream start
(value `""`), not from the accumulated buffer that the `message` branch
maintained through the functional setter.  The concrete stream below
delivers the fragments `"Hello"` and `" world"` and two citations and then
`done`: the appended message carries the two citations in arrival order but
its content is `""`, not `"Hello world"`. -/

/-- First citation of the C1 stream. -/
def c1Source1 : DocumentSource :=
  { filename := "resume.pdf", chunk_text := "Education section",
    relevance_score := 1 }

/-- Second citation of the C1 stream. -/
def c1Source2 : DocumentSource :=
  { filename := "cv.txt", chunk_text := "Skills section",
    relevance_score := 0 }

/-- The C1 stream: two `message` fragments, two `source` events, `done`. -/
def c1Events : List StreamingChatResponse :=
  [{ type := "message", content := some "Hello" },
   { type := "message", content := some " world" },
   { type := "source", source := some c1Source1 },
   { type := "source", source := some c1Source2 },
   { type := "done" }]

/-- C1: on a stream that reaches `done` after delivering the fragments
"Hello" and " world" and two citations, the assistant message appended to
the transcript has the citations in arrival order but content `""` — the
closure-captured render-time value of `streamingMessage` — even though the
fragments concatenate to "Hello world".  The accumulated buffer
(`streamingMessage` state) did hold the concatenation; only the finalized
message ignores it. -/
theorem stream_done_appends_stale_closure_content :
    runStream initialChatState.streamingMessage "conv-1" 5 c1Events
        (handleStreamingResponseStart initialChatState, []) =
      .ok ({ messages := [{ id := "5", content := "", role := .assistant,
                            timestamp := 5,
                            sources := some [c1Source1, c1Source2],
                            conversationId := some "conv-1" }]
             isLoading := false
             isStreaming := false
             conversationId := none
             error := none
             streamingMessage := "" }, [c1Source1, c1Source2]) ∧
    ("" : String) ≠ "Hello" ++ " world" := by
  decide

/-! ## Claim C2 — stale stream after `newConversation()` -/

/-- A state in which a send for conversation "conv-1" is mid-stream: the
user message has been appended and `handleStreamingResponse` has started. -/
def c2MidStream : ChatState :=
  handleStreamingResponseStart
    (handleSendMessagePre
      { initialChatState with conversationId := some "conv-1" } "Hi" 1)

/-- C2: the transcript is empty immediately after `handleNewConversation`,
but a `done` event of the old stream delivered afterwards still appends an
assistant message: `abortControllerRef.current` is never assigned, so the
`abort()` guard at chat-interface.tsx:198-200 is a no-op, and
`handleStreamMessage` commits its terminal side effect without any token
check. -/
theorem stale_done_after_new_conversation_mutates_transcript :
    (handleNewConversation c2MidStream).messages = [] ∧
    handleStreamMessage "" "conv-1" 7 { type := "done" }
        (handleNewConversation c2MidStream, []) =
      .ok ({ messages := [{ id := "7", content := "", role := .assistant,
                            timestamp := 7, sources := some [],
                            conversationId := some "conv-1" }]
             isLoading := false
             isStreaming := false
             conversationId := none
             error := none
             streamingMessage := "" }, []) ∧
    [({ id := "7", content := "", role := .assistant, timestamp := 7,
        sources := some [], conversationId := some "conv-1" } : Message)] ≠
      ([] : List Message) := by
  decide

/-! ## Claim C3 — the Failed path never appends its synthetic message -/

/-- C3: on a send failure the catch block surfaces the error banner, but the
synthetic error-marked assistant message is never appended: building the
message literal evaluates `currentConvId`, which is block-scoped to the
`try` block and out of scope in the `catch`, so a `ReferenceError` is thrown
and the transcript is left unchanged. -/
theorem send_failure_banner_but_no_error_message (σ : ChatState)
    (errorMessage : String) (now : Int) :
    (handleSendMessageCatch σ errorMessage now).1.error = some errorMessage ∧
    (handleSendMessageCatch σ errorMessage now).1.messages = σ.messages ∧
    (handleSendMessageCatch σ errorMessage now).2 =
      .error "ReferenceError: currentConvId is not defined" := by
  simp [handleSendMessageCatch, currentConvIdInCatchScope]

/-! ## Claim C4 — retry -/

/-- C4: whenever the transcript has a most recent user-role message,
`handleRetry` re-submits exactly that message's content, and its removal
step drops the trailing message exactly when that message is an assistant
message whose content contains the error marker `"error"`; otherwise the
transcript is left unchanged by the removal. -/
theorem retry_removes_trailing_error_and_resubmits (σ : ChatState)
    (lastMsg lastUserMessage : Message)
    (hlast : σ.messages.getLast? = some lastMsg)
    (huser : (σ.messages.filter (fun m => m.role = Role.user)).getLast? =
      some lastUserMessage) :
    (handleRetry σ).2 = some lastUserMessage.content ∧
    (handleRetry σ).1.messages =
      (if lastMsg.role = Role.assistant ∧ jsIncludes lastMsg.content "error"
       then σ.messages.dropLast else σ.messages) := by
  have hne : σ.messages.isEmpty = false := by
    cases hm : σ.messages with
    | nil => rw [hm] at hlast; simp at hlast
    | cons a l => simp
  have hrem : removeTrailingIfErrorLike σ.messages =
      (if lastMsg.role = Role.assistant ∧ jsIncludes lastMsg.content "error"
       then σ.messages.dropLast else σ.messages) := by
    unfold removeTrailingIfErrorLike
    rw [hlast]
    by_cases h : lastMsg.role = Role.assistant ∧ jsIncludes lastMsg.content "error"
    · rw [if_pos h]
      have : isErrorLike lastMsg = true := by
        simp [isErrorLike, h.1, h.2]
      simp [this]
    · rw [if_neg h]
      have : isErrorLike lastMsg = false := by
        by_contra hc
        rw [Bool.not_eq_false, isErrorLike, Bool.and_eq_true] at hc
        exact h ⟨by simpa using hc.1, hc.2⟩
      simp [this]
  unfold handleRetry
  rw [hne, huser]
  simp [hrem]

/-- The user message of the C4 witness transcript. -/
def c4UserMsg : Message :=
  { id := "1", content := "hi", role := .user, timestamp := 1 }

/-- The trailing error-like assistant message used by the C4 witness. -/
def c4ErrMsg : Message :=
  { id := "2"
    content := "Sorry, I encountered an error: boom. Please try again."
    role := .assistant
    timestamp := 2 }

/-- A transcript ending in an error-like assistant message, for the C4
witness. -/
def c4State : ChatState :=
  { initialChatState with
    messages := [c4UserMsg, c4ErrMsg] }

/-- C4 witness: on the concrete transcript `[user "hi", assistant error]`,
retry re-submits "hi" and the removal drops the trailing error message. -/
theorem retry_removes_trailing_error_and_resubmits_w :
    (handleRetry c4State).2 = some "hi" ∧
    (handleRetry c4State).1.messages =
      (if c4ErrMsg.role = Role.assistant ∧ jsIncludes c4ErrMsg.content "error"
       then c4State.messages.dropLast else c4State.messages) := by
  exact retry_removes_trailing_error_and_resubmits c4State c4ErrMsg c4UserMsg
    (by decide) (by decide)

/-! ## Claims C6 and C7 — the send orchestrator's synchronous prefix -/

/-- C6: for a valid submission (nonempty after trimming, no send or stream
in flight), the very first action of `handleSendMessage` is the transcript
append of one user-role message carrying the trimmed submission, and it is
the only transcript append in the run — every network interaction comes
after it. -/
theorem send_appends_user_message_before_network (σ : ChatState)
    (content : String) (now : Int) (newConvId : String) (streamingEnabled : Bool)
    (hc : jsTrim content ≠ "") (hl : σ.isLoading = false) (hs : σ.isStreaming = false) :
    (handleSendMessageSteps σ content now newConvId streamingEnabled).head? =
      some (SendStep.appendMessage (mkUserMessage content now σ.conversationId)) ∧
    (handleSendMessageSteps σ content now newConvId streamingEnabled).filter
        SendStep.isAppendMessage =
      [SendStep.appendMessage (mkUserMessage content now σ.conversationId)] ∧
    (mkUserMessage content now σ.conversationId).role = Role.user ∧
    (mkUserMessage content now σ.conversationId).content = jsTrim content := by
  have hguard : ¬(jsTrim content = "" ∨ σ.isLoading ∨ σ.isStreaming) := by
    simp [hc, hl, hs]
  unfold handleSendMessageSteps
  rw [if_neg hguard]
  refine ⟨rfl, ?_, rfl, rfl⟩
  cases hcid : σ.conversationId <;> cases streamingEnabled <;>
    simp [SendStep.isAppendMessage, List.filter]

/-- C6 witness: the concrete submission " hello " on the idle initial state. -/
theorem send_appends_user_message_before_network_w :
    (handleSendMessageSteps initialChatState " hello " 3 "conv-9" true).head? =
      some (SendStep.appendMessage (mkUserMessage " hello " 3 initialChatState.conversationId)) ∧
    (handleSendMessageSteps initialChatState " hello " 3 "conv-9" true).filter
        SendStep.isAppendMessage =
      [SendStep.appendMessage (mkUserMessage " hello " 3 initialChatState.conversationId)] ∧
    (mkUserMessage " hello " 3 initialChatState.conversationId).role = Role.user ∧
    (mkUserMessage " hello " 3 initialChatState.conversationId).content = jsTrim " hello " := by
  exact send_appends_user_message_before_network initialChatState " hello " 3 "conv-9" true
    (by decide) (by decide) (by decide)

/-- C7: for a valid first send in a conversation-less session (streaming
path), the run is exactly: append the user message, create a conversation
titled `deriveTitle content`, make the new conversation active, open the
stream on it; and the derived title is the submitted content itself when its
length is at most 50, and the first 47 characters followed by "..."
otherwise. -/
theorem first_send_creates_conversation_with_derived_title (σ : ChatState)
    (content : String) (now : Int) (newConvId : String)
    (hc : jsTrim content ≠ "") (hl : σ.isLoading = false) (hs : σ.isStreaming = false)
    (hconv : σ.conversationId = none) :
    handleSendMessageSteps σ content now newConvId true =
      [SendStep.appendMessage (mkUserMessage content now none),
       SendStep.netCreateConversation (deriveTitle content),
       SendStep.setConvId newConvId,
       SendStep.netOpenStream content newConvId] ∧
    (jsLength content ≤ 50 → deriveTitle content = content) ∧
    (jsLength content > 50 → deriveTitle content = jsTake content 47 ++ "...") := by
  have hguard : ¬(jsTrim content = "" ∨ σ.isLoading ∨ σ.isStreaming) := by
    simp [hc, hl, hs]
  refine ⟨?_, ?_, ?_⟩
  · unfold handleSendMessageSteps
    rw [if_neg hguard, hconv]
    rfl
  · intro hle
    unfold deriveTitle
    rw [if_neg (by omega)]
  · intro hgt
    unfold deriveTitle
    rw [if_pos hgt]

/-- C7 witness: sending "Summarize chapter 1" (19 characters) with no active
conversation creates a conversation titled "Summarize chapter 1" with no
truncation and makes it active. -/
theorem first_send_creates_conversation_with_derived_title_w :
    (handleSendMessageSteps initialChatState "Summarize chapter 1" 4 "conv-2" true =
      [SendStep.appendMessage (mkUserMessage "Summarize chapter 1" 4 none),
       SendStep.netCreateConversation (deriveTitle "Summarize chapter 1"),
       SendStep.setConvId "conv-2",
       SendStep.netOpenStream "Summarize chapter 1" "conv-2"] ∧
    (jsLength "Summarize chapter 1" ≤ 50 → deriveTitle "Summarize chapter 1" = "Summarize chapter 1") ∧
    (jsLength "Summarize chapter 1" > 50 →
      deriveTitle "Summarize chapter 1" = jsTake "Summarize chapter 1" 47 ++ "...")) ∧
    deriveTitle "Summarize chapter 1" = "Summarize chapter 1" := by
  refine ⟨first_send_creates_conversation_with_derived_title initialChatState
    "Summarize chapter 1" 4 "conv-2" (by decide) (by decide) (by decide) (by decide), by decide⟩

/-! ## Claim C9 — deleting a non-active conversation -/

/-- C9: deleting a conversation that is not the active one removes exactly
that entry from the directory (the surrounding entries are kept, in order)
and leaves the whole chat state — transcript, active conversation id,
flags, banner — unchanged. -/
theorem delete_nonactive_conversation_frame (s : AppState) (cid : String)
    (pre post : List Conversation) (c : Conversation)
    (hsplit : s.conversations = pre ++ c :: post)
    (hid : c.id = cid)
    (hothers : ∀ c' ∈ pre ++ post, c'.id ≠ cid)
    (hactive : s.chat.conversationId ≠ some cid) :
    handleDeleteConversation s cid = { s with conversations := pre ++ post } ∧
    (handleDeleteConversation s cid).chat = s.chat := by
  have hpre : pre.filter (fun c' => c'.id ≠ cid) = pre :=
    List.filter_eq_self.mpr (fun a ha => by
      simpa using hothers a (List.mem_append_left _ ha))
  have hpost : post.filter (fun c' => c'.id ≠ cid) = post :=
    List.filter_eq_self.mpr (fun a ha => by
      simpa using hothers a (List.mem_append_right _ ha))
  have hfilter : s.conversations.filter (fun c' => c'.id ≠ cid) = pre ++ post := by
    rw [hsplit, List.filter_append, List.filter_cons]
    rw [if_neg (by simp [hid]), hpre, hpost]
  have hmain : handleDeleteConversation s cid = { s with conversations := pre ++ post } := by
    simp only [handleDeleteConversation]
    rw [if_neg hactive, hfilter]
  exact ⟨hmain, by rw [hmain]⟩

/-- Directory entries for the C9 witness. -/
def c9ConvA : Conversation :=
  { id := "a", title := "first", updatedAt := 10, createdAt := 1, messageCount := 2 }

/-- The entry deleted by the C9 witness. -/
def c9ConvB : Conversation :=
  { id := "b", title := "second", updatedAt := 20, createdAt := 2, messageCount := 4 }

/-- The C9 witness application state: conversation "a" is active; "b" is not. -/
def c9State : AppState :=
  { chat := { initialChatState with conversationId := some "a" }
    conversations := [c9ConvA, c9ConvB] }

/-- C9 witness: deleting the non-active conversation "b" removes exactly it
and leaves the chat state untouched. -/
theorem delete_nonactive_conversation_frame_w :
    handleDeleteConversation c9State "b" =
      { c9State with conversations := [c9ConvA] ++ [] } ∧
    (handleDeleteConversation c9State "b").chat = c9State.chat := by
  exact delete_nonactive_conversation_frame c9State "b" [c9ConvA] [] c9ConvB
    (by decide) (by decide) (by decide) (by decide)

/-! ## Claim C5 — time-bucketed grouping

The code decides Today and Yesterday by calendar-day equality but This Week
by the instant comparison `conv.updatedAt > now − 7·24h`, and a conversation
updated 25 hours ago falls on Yesterday's calendar day only when the current
local time of day is at least 01:00.  The claim's universal scenario
therefore fails near midnight (counterexample below); it holds under the
time-of-day hypothesis, together with the exact characterization of the
This Week bucket. -/

/-- A directory entry with a given update time, for the grouping scenario. -/
def convUpdatedAt (i : Nat) (t : Int) : Conversation :=
  { id := toString i, title := "conversation " ++ toString i,
    updatedAt := t, createdAt := t, messageCount := 1 }

/-- The grouping scenario input: conversations updated at T0, T0−25h,
T0−3d and T0−40d. -/
def c5Convs (t : Int) : List Conversation :=
  [convUpdatedAt 0 t, convUpdatedAt 1 (t - 90000000),
   convUpdatedAt 2 (t - 259200000), convUpdatedAt 3 (t - 3456000000)]

/-- C5 (amended): the This Week bucket holds exactly the conversations whose
calendar day is neither today's nor yesterday's and whose update instant is
strictly within the past 7·24 hours (an instant comparison, not a calendar
one); and provided the local time of day of T0 is at least one hour — so
that T0−25h still falls on yesterday's calendar day — the scenario
T0, T0−25h, T0−3d, T0−40d yields exactly one conversation in each of the
four ordered buckets Today, Yesterday, This Week, Older. -/
theorem grouping_buckets_this_week_and_scenario (t : Int)
    (h : 3600000 ≤ t % 86400000) :
    (∀ conv : Conversation,
        bucketOf t conv = "This Week" ↔
          toDateStringDay conv.updatedAt ≠ toDateStringDay t ∧
          toDateStringDay conv.updatedAt ≠ toDateStringDay (t - 86400000) ∧
          t - 604800000 < conv.updatedAt) ∧
    conversationGroups t (c5Convs t) =
      [("Today", [convUpdatedAt 0 t]),
       ("Yesterday", [convUpdatedAt 1 (t - 90000000)]),
       ("This Week", [convUpdatedAt 2 (t - 259200000)]),
       ("Older", [convUpdatedAt 3 (t - 3456000000)])] := by
  constructor
  · intro conv
    simp only [bucketOf, toDateStringDay]
    split_ifs with h1 h2 h3
    · exact iff_of_false (by decide) (fun hh => hh.1 h1)
    · exact iff_of_false (by decide) (fun hh => hh.2.1 (by omega))
    · exact iff_of_true rfl ⟨h1, by omega, by omega⟩
    · exact iff_of_false (by decide) (fun hh => h3 (by have := hh.2.2; omega))
  · have e0 : bucketOf t (convUpdatedAt 0 t) = "Today" := by
      simp [bucketOf, toDateStringDay, convUpdatedAt]
    have e1 : bucketOf t (convUpdatedAt 1 (t - 90000000)) = "Yesterday" := by
      simp only [bucketOf, toDateStringDay, convUpdatedAt]
      rw [if_neg (by omega), if_pos (by omega)]
    have e2 : bucketOf t (convUpdatedAt 2 (t - 259200000)) = "This Week" := by
      simp only [bucketOf, toDateStringDay, convUpdatedAt]
      rw [if_neg (by omega), if_neg (by omega), if_pos (by omega)]
    have e3 : bucketOf t (convUpdatedAt 3 (t - 3456000000)) = "Older" := by
      simp only [bucketOf, toDateStringDay, convUpdatedAt]
      rw [if_neg (by omega), if_neg (by omega), if_neg (by omega)]
    simp [conversationGroups, c5Convs, List.filter_cons, e0, e1, e2, e3]

/-- C5 counterexample: at a T0 whose local time of day is 00:30
(T0 = 100 days + 30 min), the conversation updated 25 hours earlier falls on
the day before yesterday's calendar day and is bucketed into This Week, so
Yesterday is empty and omitted and This Week receives two entries — the
claimed one-entry-per-bucket outcome fails. -/
theorem grouping_scenario_fails_near_midnight :
    conversationGroups 8641800000 (c5Convs 8641800000) =
      [("Today", [convUpdatedAt 0 8641800000]),
       ("This Week", [convUpdatedAt 1 8551800000, convUpdatedAt 2 8382600000]),
       ("Older", [convUpdatedAt 3 5185800000])] ∧
    (conversationGroups 8641800000 (c5Convs 8641800000)).map Prod.fst ≠
      ["Today", "Yesterday", "This Week", "Older"] := by
  decide

/-- C5 witness: at T0 = 100 days + 1 hour the scenario does produce exactly
one conversation per bucket. -/
theorem grouping_buckets_this_week_and_scenario_w :
    (∀ conv : Conversation,
        bucketOf 8643600000 conv = "This Week" ↔
          toDateStringDay conv.updatedAt ≠ toDateStringDay 8643600000 ∧
          toDateStringDay conv.updatedAt ≠ toDateStringDay (8643600000 - 86400000) ∧
          8643600000 - 604800000 < conv.updatedAt) ∧
    conversationGroups 8643600000 (c5Convs 8643600000) =
      [("Today", [convUpdatedAt 0 8643600000]),
       ("Yesterday", [convUpdatedAt 1 (8643600000 - 90000000)]),
       ("This Week", [convUpdatedAt 2 (8643600000 - 259200000)]),
       ("Older", [convUpdatedAt 3 (8643600000 - 3456000000)])] := by
  exact grouping_buckets_this_week_and_scenario 8643600000 (by decide)

/-! ## Claim C8 — sidebar filtering and sorting -/

/-- The combined pass/fail criterion applied by the sidebar filter effect:
the text criterion (skipped entirely when the trimmed query is empty) and
the inclusive date-range criterion. -/
def passesFilters (searchQuery : String) (dateRange : Option (Int × Int))
    (conv : Conversation) : Bool :=
  (if jsTrim searchQuery ≠ "" then textMatches (jsToLower searchQuery) conv else true) &&
  (match dateRange with
   | some r => decide (r.1 ≤ conv.updatedAt ∧ conv.updatedAt ≤ r.2)
   | none => true)

/-- The two sequential filters of the effect coincide with one filter by the
combined criterion. -/
theorem filteredConversationsOf_eq (convs : List Conversation) (q : String)
    (r : Option (Int × Int)) :
    filteredConversationsOf convs q r =
      (convs.filter (passesFilters q r)).mergeSort updatedDescLE := by
  unfold filteredConversationsOf passesFilters
  by_cases hq : jsTrim q ≠ "" <;> rcases r with _ | ⟨s, e⟩ <;>
    simp [hq, List.filter_filter, Bool.and_comm]

/-- The comparator is transitive. -/
theorem updatedDescLE_trans (a b c : Conversation) :
    updatedDescLE a b → updatedDescLE b c → updatedDescLE a c := by
  simp only [updatedDescLE, decide_eq_true_eq]
  omega

/-- The comparator is total. -/
theorem updatedDescLE_total (a b : Conversation) :
    updatedDescLE a b || updatedDescLE b a := by
  simp only [updatedDescLE, Bool.or_eq_true, decide_eq_true_eq]
  omega

/-- C8 (amended): the sidebar filter effect returns exactly (as a multiset)
the conversations passing the text criterion — skipped when the trimmed
query is empty — and the inclusive date-range criterion; the output is in
nonincreasing order of last-update time; and the output is the same for
every permutation of the input provided the retained conversations'
last-update times are pairwise distinct (with tied times the stable sort
preserves input order, so permutation invariance fails in general). -/
theorem filter_sort_characterization (convs convs' : List Conversation)
    (q : String) (r : Option (Int × Int)) :
    List.Perm (filteredConversationsOf convs q r) (convs.filter (passesFilters q r)) ∧
    (filteredConversationsOf convs q r).Pairwise
      (fun a b => b.updatedAt ≤ a.updatedAt) ∧
    (List.Perm convs convs' →
      (convs.filter (passesFilters q r)).Pairwise
        (fun a b => a.updatedAt ≠ b.updatedAt) →
      filteredConversationsOf convs q r = filteredConversationsOf convs' q r) := by
  have key := filteredConversationsOf_eq convs q r
  have key' := filteredConversationsOf_eq convs' q r
  refine ⟨?_, ?_, ?_⟩
  · rw [key]
    exact List.mergeSort_perm _ _
  · rw [key]
    exact (List.sorted_mergeSort updatedDescLE_trans updatedDescLE_total _).imp
      (fun h => by simpa [updatedDescLE] using h)
  · intro hperm hnodup
    rw [key, key']
    have hnodup' : (convs'.filter (passesFilters q r)).Pairwise
        (fun a b => a.updatedAt ≠ b.updatedAt) :=
      hnodup.perm (hperm.filter _) (fun h => h.symm)
    have strict : ∀ (l : List Conversation),
        l.Pairwise (fun a b => a.updatedAt ≠ b.updatedAt) →
        (l.mergeSort updatedDescLE).Pairwise
          (fun a b => b.updatedAt < a.updatedAt) := by
      intro l hl
      have hs := List.sorted_mergeSort updatedDescLE_trans updatedDescLE_total l
      have hn : (l.mergeSort updatedDescLE).Pairwise
          (fun a b => a.updatedAt ≠ b.updatedAt) :=
        hl.perm (List.mergeSort_perm l updatedDescLE).symm (fun h => h.symm)
      exact (hs.and hn).imp (fun hab =>
        lt_of_le_of_ne (by simpa [updatedDescLE] using hab.1) (Ne.symm hab.2))
    haveI : IsAntisymm Conversation (fun a b => b.updatedAt < a.updatedAt) :=
      ⟨fun a b h1 h2 => absurd (h1.trans h2) (lt_irrefl _)⟩
    exact List.eq_of_perm_of_sorted
      ((List.mergeSort_perm _ _).trans ((hperm.filter _).trans
        (List.mergeSort_perm _ _).symm))
      (strict _ hnodup) (strict _ hnodup')

/-- First conversation of the C8 tie counterexample (update time 5). -/
def c8ConvA : Conversation :=
  { id := "a", title := "alpha", updatedAt := 5, createdAt := 1, messageCount := 1 }

/-- Second conversation of the C8 tie counterexample (same update time 5). -/
def c8ConvB : Conversation :=
  { id := "b", title := "beta", updatedAt := 5, createdAt := 1, messageCount := 1 }

/-- A conversation with a distinct update time, for the C8 witness. -/
def c8ConvC : Conversation :=
  { id := "c", title := "gamma", updatedAt := 7, createdAt := 1, messageCount := 1 }

/-- C8 counterexample: with two conversations tied on `updatedAt`, the two
orderings of the same input set produce different outputs (the sort is
stable, so ties keep input order), refuting permutation invariance as
claimed. -/
theorem filter_sort_not_permutation_invariant :
    List.Perm [c8ConvA, c8ConvB] [c8ConvB, c8ConvA] ∧
    filteredConversationsOf [c8ConvA, c8ConvB] "" none ≠
      filteredConversationsOf [c8ConvB, c8ConvA] "" none := by
  constructor
  · exact List.Perm.swap _ _ _
  · have h1 : filteredConversationsOf [c8ConvA, c8ConvB] "" none =
        [c8ConvA, c8ConvB] := by
      rw [filteredConversationsOf_eq]
      rw [show List.filter (passesFilters "" none) [c8ConvA, c8ConvB] =
        [c8ConvA, c8ConvB] by decide]
      exact List.mergeSort_of_sorted (by decide)
    have h2 : filteredConversationsOf [c8ConvB, c8ConvA] "" none =
        [c8ConvB, c8ConvA] := by
      rw [filteredConversationsOf_eq]
      rw [show List.filter (passesFilters "" none) [c8ConvB, c8ConvA] =
        [c8ConvB, c8ConvA] by decide]
      exact List.mergeSort_of_sorted (by decide)
    rw [h1, h2]
    decide

/-- C8 witness: with pairwise-distinct update times the output is
permutation invariant on a concrete pair of inputs. -/
theorem filter_sort_characterization_w :
    filteredConversationsOf [c8ConvA, c8ConvC] "" none =
      filteredConversationsOf [c8ConvC, c8ConvA] "" none :=
  (filter_sort_characterization [c8ConvA, c8ConvC] [c8ConvC, c8ConvA] "" none).2.2
    (List.Perm.swap _ _ _) (by decide)

/-! ## Claim C10 — invariants of user messages

Trim facts needed: trimming is idempotent and never lengthens a string. -/

/-- Dropping a prefix twice is the same as dropping it once. -/
theorem dropWhile_dropWhile (p : α → Bool) (l : List α) :
    (l.dropWhile p).dropWhile p = l.dropWhile p := by
  induction l with
  | nil => rfl
  | cons a t ih =>
      by_cases hpa : p a
      · rw [List.dropWhile_cons_of_pos hpa]; exact ih
      · rw [List.dropWhile_cons_of_neg hpa, List.dropWhile_cons_of_neg hpa]

/-- When the last element fails the predicate, `dropWhile` ignores it. -/
theorem dropWhile_append_singleton (p : α → Bool) (a : α) (h : ¬ p a)
    (xs : List α) : (xs ++ [a]).dropWhile p = xs.dropWhile p ++ [a] := by
  induction xs with
  | nil => simp [List.dropWhile_cons_of_neg h]
  | cons x t ih =>
      by_cases hpx : p x
      · simpa [List.dropWhile_cons_of_pos hpx] using ih
      · simp [List.dropWhile_cons_of_neg hpx]

/-- The right-trim half of `trimChars`. -/
def rtrimChars (l : List Char) : List Char :=
  (l.reverse.dropWhile isJsWhitespace).reverse

/-- `trimChars` is right-trim after left-trim. -/
theorem trimChars_eq_rtrim (l : List Char) :
    trimChars l = rtrimChars (l.dropWhile isJsWhitespace) := rfl

/-- Right-trimming keeps a whitespace-free front whitespace-free. -/
theorem rtrim_preserves_front (l : List Char)
    (h : l.dropWhile isJsWhitespace = l) :
    (rtrimChars l).dropWhile isJsWhitespace = rtrimChars l := by
  cases l with
  | nil => rfl
  | cons a t =>
      have hpa : ¬ isJsWhitespace a = true := by
        intro hpa
        rw [List.dropWhile_cons_of_pos hpa] at h
        have h1 := (List.dropWhile_sublist (l := t) isJsWhitespace).length_le
        have h2 := congrArg List.length h
        simp at h2
        omega
      have : rtrimChars (a :: t) = a :: (t.reverse.dropWhile isJsWhitespace).reverse := by
        unfold rtrimChars
        rw [List.reverse_cons, dropWhile_append_singleton _ _ hpa, List.reverse_append]
        rfl
      rw [this, List.dropWhile_cons_of_neg hpa]

/-- Right-trimming is idempotent. -/
theorem rtrim_rtrim (l : List Char) : rtrimChars (rtrimChars l) = rtrimChars l := by
  unfold rtrimChars
  rw [List.reverse_reverse, dropWhile_dropWhile]

/-- Trimming is idempotent on character lists. -/
theorem trimChars_idem (l : List Char) : trimChars (trimChars l) = trimChars l := by
  rw [trimChars_eq_rtrim l, trimChars_eq_rtrim,
    rtrim_preserves_front _ (dropWhile_dropWhile _ _), rtrim_rtrim]

/-- `jsTrim` is idempotent. -/
theorem jsTrim_idem (s : String) : jsTrim (jsTrim s) = jsTrim s := by
  unfold jsTrim
  exact congrArg String.mk (trimChars_idem s.data)

/-- Trimming never lengthens. -/
theorem jsLength_jsTrim_le (s : String) : jsLength (jsTrim s) ≤ jsLength s := by
  unfold jsLength jsTrim trimChars
  simp only [List.length_reverse]
  calc ((s.data.dropWhile isJsWhitespace).reverse.dropWhile isJsWhitespace).length
      ≤ (s.data.dropWhile isJsWhitespace).reverse.length :=
        (List.dropWhile_sublist _).length_le
    _ = (s.data.dropWhile isJsWhitespace).length := List.length_reverse _
    _ ≤ s.data.length := (List.dropWhile_sublist _).length_le

/-- Appending an assistant message preserves the user-message invariant. -/
theorem userOk_append_assistant (msgs : List Message)
    (hok : ∀ m ∈ msgs, m.role = Role.user → userMessageOk m)
    (a : Message) (ha : a.role = Role.assistant) :
    ∀ m ∈ msgs ++ [a], m.role = Role.user → userMessageOk m := by
  intro m hm hr
  rcases List.mem_append.mp hm with h | h
  · exact hok m h hr
  · have hma : m = a := by simpa using h
    subst hma
    rw [hr] at ha
    exact absurd ha (by decide)

/-- The synchronous prefix of `handleSendMessage` preserves the invariant
when the submitted content is at most 1000 characters. -/
theorem sendPre_preserves (σ : ChatState) (content : String) (now : Int)
    (hlen : jsLength content ≤ 1000)
    (hok : ∀ m ∈ σ.messages, m.role = Role.user → userMessageOk m) :
    ∀ m ∈ (handleSendMessagePre σ content now).messages,
      m.role = Role.user → userMessageOk m := by
  unfold handleSendMessagePre
  split_ifs with hg
  · exact hok
  · intro m hm hr
    rcases List.mem_append.mp hm with h | h
    · exact hok m h hr
    · have hmu : m = mkUserMessage content now σ.conversationId := by simpa using h
      subst hmu
      refine ⟨?_, ?_, ?_⟩
      · intro hc
        exact hg (Or.inl hc)
      · exact jsTrim_idem content
      · exact le_trans (jsLength_jsTrim_le content) hlen

/-- One stream event preserves the invariant: the only message it can append
is the finalized assistant message. -/
theorem streamEvent_preserves (captured convId : String) (now : Int)
    (ev : StreamingChatResponse) (σ σ' : ChatState)
    (sources sources' : List DocumentSource)
    (h : handleStreamMessage captured convId now ev (σ, sources) = .ok (σ', sources'))
    (hok : ∀ m ∈ σ.messages, m.role = Role.user → userMessageOk m) :
    ∀ m ∈ σ'.messages, m.role = Role.user → userMessageOk m := by
  simp only [handleStreamMessage] at h
  split at h
  · -- message event
    split at h
    · -- content present
      split at h
      · rw [Except.ok.injEq, Prod.mk.injEq] at h
        obtain ⟨h5, h6⟩ := h
        subst h5
        exact hok
      · rw [Except.ok.injEq, Prod.mk.injEq] at h
        obtain ⟨h5, h6⟩ := h
        subst h5
        exact hok
    · rw [Except.ok.injEq, Prod.mk.injEq] at h
      obtain ⟨h5, h6⟩ := h
      subst h5
      exact hok
  · split at h
    · -- source event
      split at h
      · rw [Except.ok.injEq, Prod.mk.injEq] at h
        obtain ⟨h5, h6⟩ := h
        subst h5
        exact hok
      · rw [Except.ok.injEq, Prod.mk.injEq] at h
        obtain ⟨h5, h6⟩ := h
        subst h5
        exact hok
    · split at h
      · -- done event: the appended message has role assistant
        rw [Except.ok.injEq, Prod.mk.injEq] at h
        obtain ⟨h5, h6⟩ := h
        subst h5
        exact userOk_append_assistant σ.messages hok _ rfl
      · split at h
        · -- error event throws
          exact absurd h (by simp)
        · -- unknown event type: state unchanged
          rw [Except.ok.injEq, Prod.mk.injEq] at h
          obtain ⟨h5, h6⟩ := h
          subst h5
          exact hok

/-- A retry preserves the invariant: the removal keeps a sublist, and the
re-submitted content is a user message content already satisfying it. -/
theorem retryStep_preserves (σ : ChatState) (now : Int)
    (hok : ∀ m ∈ σ.messages, m.role = Role.user → userMessageOk m) :
    ∀ m ∈ (retryStep σ now).messages, m.role = Role.user → userMessageOk m := by
  unfold retryStep handleRetry
  split_ifs with hemp
  · exact hok
  · cases hu : (σ.messages.filter (fun m => m.role = Role.user)).getLast? with
    | some lastUserMessage =>
        have hboth := List.mem_filter.mp (List.mem_of_getLast?_eq_some hu)
        have hmem : lastUserMessage ∈ σ.messages := hboth.1
        have hrole : lastUserMessage.role = Role.user := by
          simpa using hboth.2
        have hulok : userMessageOk lastUserMessage := hok _ hmem hrole
        have hok' : ∀ m ∈ (removeTrailingIfErrorLike σ.messages),
            m.role = Role.user → userMessageOk m := by
          intro m hm
          unfold removeTrailingIfErrorLike at hm
          refine hok m ?_
          split at hm
          · split at hm
            · exact List.dropLast_subset _ hm
            · exact hm
          · exact hm
        have happlied := sendPre_preserves
          { σ with messages := removeTrailingIfErrorLike σ.messages }
          lastUserMessage.content now hulok.2.2 hok'
        simpa using happlied
    | none => exact hok

/-- C10: every user-role message in any chat state reachable through the
public send interface — submissions bounded by the input's `maxLength`,
stream events, failure handlers, retry, reset — is nonempty, carries no
leading or trailing whitespace (the orchestrator stores the trimmed
submission), and is at most 1000 characters long. -/
theorem reachable_user_messages_invariant (σ : ChatState)
    (h : ReachableChat σ) :
    ∀ m ∈ σ.messages, m.role = Role.user → userMessageOk m := by
  induction h with
  | init =>
      intro m hm
      simp [initialChatState] at hm
  | submit σ draft now hσ hlen ih =>
      unfold chatInputSubmit
      split_ifs with hg
      · exact sendPre_preserves σ (jsTrim draft) now
          (le_trans (jsLength_jsTrim_le draft) hlen) ih
      · exact ih
  | streamStart σ hσ ih =>
      simpa [handleStreamingResponseStart] using ih
  | streamEvent σ σ' captured convId now ev sources sources' hσ heq ih =>
      exact streamEvent_preserves captured convId now ev σ σ' sources sources' heq ih
  | streamFailed σ message hσ ih =>
      simpa [handleStreamError] using ih
  | sendFailed σ errorMessage now hσ ih =>
      simpa [handleSendMessageCatch, currentConvIdInCatchScope] using ih
  | retry σ now hσ ih =>
      exact retryStep_preserves σ now ih
  | newConversation σ hσ ih =>
      intro m hm
      simp [handleNewConversation] at hm

/-- C10 witness: submitting the draft " hi " from the initial state appends
the user message with content "hi", which satisfies the invariant. -/
theorem reachable_user_messages_invariant_w :
    userMessageOk (mkUserMessage (jsTrim " hi ") 2 none) := by
  refine reachable_user_messages_invariant _
    (ReachableChat.submit initialChatState " hi " 2 ReachableChat.init (by decide))
    (mkUserMessage (jsTrim " hi ") 2 none) ?_ (by decide)
  decide

end ResumeChatbot
